import Mathlib

/-!
Verification of the JobsDataRAGModel repository.

Shallow embedding of `python/python_databricks_to_azure/main.py` (the
load → sample → enrich → upsert pipeline) and
`python/python_streamlit_langchain_to_gemini/main.py` (the chat wrapper).

Remote services (the Azure Text Analytics client, the pandas sampler, the
Databricks connector, the LangChain SQL agent) are not part of the
repository; they are modelled as explicit oracle parameters.  A batch-level
remote call that may raise is an `Except String` value; a per-document
result carries the service's error flag, mirroring `doc.is_error`.
-/

/-- Truthiness of a Python string: the empty string is falsy. -/
def pyTruthy (s : String) : Bool := s ≠ ""

/-- Truthiness of an `os.getenv` result: `None` and `""` are falsy. -/
def pyTruthyOpt : Option String → Bool
  | Option.none => false
  | Option.some s => pyTruthy s

/-- Python `str.capitalize()`: first character upper-cased, the rest
lower-cased (ASCII suffices for the sentiment labels in this program). -/
def pyCapitalize (s : String) : String :=
  match s.data with
  | [] => ""
  | c :: cs => String.mk (c.toUpper :: cs.map Char.toLower)

/-- One input row of the sampled DataFrame as the enrichment functions see
it: its `Job Id` and its `Job Description` cell (`none` models NaN). -/
structure Row where
  jobId : Nat
  description : Option String
deriving DecidableEq, Repr

/-- `df[text_column].fillna("").astype(str)` applied to one row. -/
def rowText (r : Row) : String := r.description.getD ""

/-- `texts[i:i+batch_size]` slices of `for i in range(0, len(texts), batch_size)`:
the list of contiguous chunks of size `bs` (last one possibly shorter).
For `bs = 0` Python's `range` raises, so callers guard that case;
here `chunksOf 0 l = []`. -/
def chunksOf (bs : Nat) (l : List α) : List (List α) :=
  if l.isEmpty ∨ bs = 0 then [] else l.take bs :: chunksOf bs (l.drop bs)
termination_by l.length
decreasing_by
  simp only [List.length_drop]
  rcases l with _ | ⟨x, xs⟩
  · simp [List.isEmpty] at *
  · simp only [List.length_cons]
    omega

/-- One response document of `azure_client.analyze_sentiment`:
either the per-document error flag (`doc.is_error`) or the three
confidence scores plus the sentiment string. -/
inductive SentDoc where
  | err (msg : String)
  | ok (positive neutral negative : Rat) (sentiment : String)
deriving DecidableEq, Repr

/-- `doc.is_error` for a sentiment document. -/
def SentDoc.is_error : SentDoc → Bool
  | .err _ => true
  | .ok .. => false

/-- The `(sentiment_scores, sentiment_labels)` entry the loop body appends
for one response document: `(None, None)` on a per-document error, else
`(max of the three confidence scores, doc.sentiment.capitalize())`. -/
def sentPair : SentDoc → Option Rat × Option String
  | .err _ => (Option.none, Option.none)
  | .ok p nu ng s => (Option.some (max (max p nu) ng), Option.some (pyCapitalize s))

/-- The body of `analyze_sentiment`'s batch loop for one batch: if the batch
has no truthy text (`if not any(batch)`) extend with `None`s without calling
the service; otherwise call the service, turning a raised exception into
`None`s for the whole batch and mapping each response document through
`sentPair`.  The second component records the batch when a remote call was
issued. -/
def processSentChunk (oracle : List String → Except String (List SentDoc))
    (batch : List String) : List (Option Rat × Option String) × Option (List String) :=
  if ¬ batch.any pyTruthy then
    (batch.map fun _ => (Option.none, Option.none), Option.none)
  else
    match oracle batch with
    | .ok docs => (docs.map sentPair, Option.some batch)
    | .error _ => (batch.map fun _ => (Option.none, Option.none), Option.some batch)

/-- The `(score, label)` pairs accumulated by `analyze_sentiment`'s loop
over all batches, in order. -/
def sentResults (oracle : List String → Except String (List SentDoc))
    (bs : Nat) (texts : List String) : List (Option Rat × Option String) :=
  (chunksOf bs texts).flatMap fun b => (processSentChunk oracle b).1

/-- The batches for which `analyze_sentiment` actually issued a remote call
(the all-falsy batches are skipped by the `if not any(batch)` branch). -/
def sentCalls (oracle : List String → Except String (List SentDoc))
    (bs : Nat) (texts : List String) : List (List String) :=
  (chunksOf bs texts).filterMap fun b => (processSentChunk oracle b).2

/-- `analyze_sentiment(azure_client, df, text_column, batch_size)`.
Returns the rows paired with their appended `(sentiment_score,
sentiment_label)` columns.  `batch_size = 0` models the `ValueError` Python's
`range` raises; a length mismatch between the accumulated result lists and
the DataFrame models the `ValueError` pandas raises on column assignment. -/
def analyze_sentiment (oracle : List String → Except String (List SentDoc))
    (df : List Row) (bs : Nat) :
    Except String (List (Row × Option Rat × Option String)) :=
  if bs = 0 then .error "range() arg 3 must not be zero"
  else
    let texts := df.map rowText
    let pairs := sentResults oracle bs texts
    if pairs.length = df.length then .ok (df.zip pairs)
    else .error "Length of values does not match length of index"

/-- One response document of `azure_client.extract_key_phrases`: the
per-document error flag or the list `doc.key_phrases`. -/
inductive KPDoc where
  | err (msg : String)
  | ok (key_phrases : List String)
deriving DecidableEq, Repr

/-- One key-phrase record appended by `extract_key_phrases`:
`{'job_id': ..., 'phrase': ..., 'source_field': text_column}`. -/
structure KPRec where
  job_id : Nat
  phrase : String
  source_field : String
deriving DecidableEq, Repr

/-- One named entity inside a successful `recognize_entities` document:
`entity.text`, `entity.category`, `entity.confidence_score`. -/
structure EntityInfo where
  text : String
  category : String
  confidence_score : Rat
deriving DecidableEq, Repr

/-- One response document of `azure_client.recognize_entities`. -/
inductive EntDoc where
  | err (msg : String)
  | ok (entities : List EntityInfo)
deriving DecidableEq, Repr

/-- One entity record appended by `recognize_entities`:
`{'job_id': ..., 'entity_name': ..., 'entity_type': ..., 'confidence': ...}`. -/
structure EntRec where
  job_id : Nat
  entity_name : String
  entity_type : String
  confidence : Rat
deriving DecidableEq, Repr

/-- The body of `extract_key_phrases`' batch loop for one batch of texts and
the parallel batch of job ids: a raised remote call appends nothing; inside a
successful response, `zip(response, batch_ids)` pairs documents with ids, an
error-flagged document is skipped (`continue`), and each key phrase of a good
document yields one record. -/
def kpChunk (oracle : List String → Except String (List KPDoc)) (col : String)
    (batch_texts : List String) (batch_ids : List Nat) : List KPRec :=
  match oracle batch_texts with
  | .error _ => []
  | .ok docs =>
    (docs.zip batch_ids).flatMap fun p =>
      match p.1 with
      | .err _ => []
      | .ok phrases => phrases.map fun ph => ⟨p.2, ph, col⟩

/-- `extract_key_phrases(azure_client, df, text_column, batch_size)`:
texts and job ids are sliced in parallel (`texts[i:i+bs]`,
`job_ids[i:i+bs]`) and each batch is processed by `kpChunk`. -/
def extract_key_phrases (oracle : List String → Except String (List KPDoc))
    (df : List Row) (col : String) (bs : Nat) : Except String (List KPRec) :=
  if bs = 0 then .error "range() arg 3 must not be zero"
  else
    let texts := df.map rowText
    let job_ids := df.map Row.jobId
    .ok (((chunksOf bs texts).zip (chunksOf bs job_ids)).flatMap fun p =>
      kpChunk oracle col p.1 p.2)

/-- The body of `recognize_entities`' batch loop for one batch, mirroring
`kpChunk` with entity records. -/
def entChunk (oracle : List String → Except String (List EntDoc))
    (batch_texts : List String) (batch_ids : List Nat) : List EntRec :=
  match oracle batch_texts with
  | .error _ => []
  | .ok docs =>
    (docs.zip batch_ids).flatMap fun p =>
      match p.1 with
      | .err _ => []
      | .ok entities => entities.map fun e => ⟨p.2, e.text, e.category, e.confidence_score⟩

/-- `recognize_entities(azure_client, df, text_column, batch_size)`. -/
def recognize_entities (oracle : List String → Except String (List EntDoc))
    (df : List Row) (bs : Nat) : Except String (List EntRec) :=
  if bs = 0 then .error "range() arg 3 must not be zero"
  else
    let texts := df.map rowText
    let job_ids := df.map Row.jobId
    .ok (((chunksOf bs texts).zip (chunksOf bs job_ids)).flatMap fun p =>
      entChunk oracle p.1 p.2)

/-- `random_df_split(df, numrows)`.  The call `df.sample(n=numrows,
random_state=42)` is pandas library code, modelled by the deterministic
`sampler` oracle; the guard and its `ValueError` message are the
repository's own code. -/
def random_df_split (sampler : Nat → List Row → List Row)
    (df : List Row) (numrows : Nat) : Except String (List Row) :=
  if numrows > df.length then
    .error "numrows must be less than or equal to the number of rows in the DataFrame."
  else
    .ok (sampler numrows df)

/-- A Python scalar as it sits in a pandas row: `none` is Python `None`,
`nan` is any missing/NaN value (plain or inside a numpy wrapper, since
`pd.isna` treats them alike), `npInt`/`npFloat` are numpy wrapper types
(the ones with an `.item()` method), the rest are already-native values. -/
inductive PyVal where
  | none
  | nan
  | int (i : Int)
  | float (q : Rat)
  | str (s : String)
  | bool (b : Bool)
  | npInt (i : Int)
  | npFloat (q : Rat)
deriving DecidableEq, Repr

/-- `pd.isna(val)`. -/
def pd_isna : PyVal → Bool
  | .none => true
  | .nan => true
  | _ => false

/-- `hasattr(val, 'item')`: numpy wrapper types have an `.item()` method. -/
def hasItem : PyVal → Bool
  | .npInt _ => true
  | .npFloat _ => true
  | _ => false

/-- The helper `to_python` inside `upsert_job_to_sql`: `None`/NaN become the
null marker, numpy wrappers are unwrapped via `.item()`, everything else
passes through. -/
def to_python (val : PyVal) : PyVal :=
  if val = .none ∨ pd_isna val then .none
  else if hasItem val then
    match val with
    | .npInt i => .int i
    | .npFloat q => .float q
    | v => v
  else val

/-- `val = .none ∨ val = .nan`: the value is missing. -/
def PyVal.isMissing (val : PyVal) : Prop := val = .none ∨ val = .nan

instance (val : PyVal) : Decidable val.isMissing := by
  unfold PyVal.isMissing; infer_instance

/-- Minimal model of `json.dumps` on a string (quote, escaping the two
characters that can occur in this program's data paths). -/
def jsonStr (s : String) : String :=
  "\"" ++ ((s.replace "\\" "\\\\").replace "\"" "\\\"") ++ "\""

/-- Model of `json.dumps` on the phrase objects
`{"phrase": ..., "source": ...}` built by `upsert_job_to_sql`. -/
def dumpPhrases (l : List KPRec) : String :=
  "[" ++ String.intercalate ", "
    (l.map fun r => "\x7b\"phrase\": " ++ jsonStr r.phrase
      ++ ", \"source\": " ++ jsonStr r.source_field ++ "\x7d") ++ "]"

/-- Model of `json.dumps` on the entity objects
`{"entity": ..., "type": ..., "confidence": ...}` built by
`upsert_job_to_sql` (`float(...)` is the identity on our `Rat` model). -/
def dumpEntities (l : List EntRec) : String :=
  "[" ++ String.intercalate ", "
    (l.map fun r => "\x7b\"entity\": " ++ jsonStr r.entity_name
      ++ ", \"type\": " ++ jsonStr r.entity_type
      ++ ", \"confidence\": " ++ toString r.confidence ++ "\x7d") ++ "]"

/-- Equality test `df_key_phrases['job_id'] == job_id` between the stored
(native integer) job id column and the row's `Job Id` cell. -/
def pyEqNat : PyVal → Nat → Bool
  | .int i, n => i == (n : Int)
  | .npInt i, n => i == (n : Int)
  | _, _ => false

/-- The 23 row keys read by `row.get(...)` for the leading scalar parameters
of `sp_UpsertJob`, in the order of the `cursor.execute` tuple. -/
def rowKeys : List String :=
  ["Job Id", "Job Title", "Company", "Company Size", "Company Profile",
   "location", "Country", "latitude", "longitude", "Role", "Job Portal",
   "Job Posting Date", "Salary Range", "Experience", "Qualifications",
   "Job Description", "Benefits", "Work Type", "Preference",
   "Contact Person", "Contact", "Responsibilities", "skills"]

/-- The 26-element parameter tuple `upsert_job_to_sql` passes to
`sp_UpsertJob`: 23 `to_python(row.get(key))` scalars, then
`phrases_json` (position 23), `entities_json` (position 24), then
`to_python(row.get('sentiment_score'))` (position 25).  The two JSON texts
are the filtered collections serialized, or the literal `"[]"` when the
filter is empty.  `row` models the pandas Series: `row.get(k)` for a key the
Series lacks is `None`, i.e. `PyVal.none`. -/
def upsert_job_params (row : String → PyVal)
    (df_key_phrases : List KPRec) (df_entities : List EntRec) : List PyVal :=
  let job_id := row "Job Id"
  let job_phrases := df_key_phrases.filter fun r => pyEqNat job_id r.job_id
  let phrases_json := if ¬ job_phrases.isEmpty then dumpPhrases job_phrases else "[]"
  let job_entities := df_entities.filter fun r => pyEqNat job_id r.job_id
  let entities_json := if ¬ job_entities.isEmpty then dumpEntities job_entities else "[]"
  (rowKeys.map fun k => to_python (row k))
    ++ [.str phrases_json, .str entities_json, to_python (row "sentiment_score")]

/-- `authenticate_azure_client()`: reads the two language-service variables
and raises if either is falsy; constructing `TextAnalyticsClient` issues no
network call, so a `.ok` result is just the credential pair. -/
def authenticate_azure_client (env : String → Option String) :
    Except String (String × String) :=
  let endpoint := env "LanguageServiceEndpoint"
  let api_key := env "LanguageServiceAPI"
  if ¬ pyTruthyOpt endpoint ∨ ¬ pyTruthyOpt api_key then
    .error "Please set the LanguageServiceEndpoint and LanguageServiceAPI in the .env file."
  else
    .ok (endpoint.getD "", api_key.getD "")

/-- A network-issuing action of the setup functions: the `pyodbc.connect`
call with its connection string, or the `databricks.sql.connect` call with
the three credential values it was handed plus the query that will run. -/
inductive NetworkAction where
  | pyodbcConnect (connection_string : String)
  | databricksConnect (server_hostname http_path access_token : Option String)
      (query : String)
deriving DecidableEq, Repr

/-- `connect_to_sql_server()`: validates that all four credentials are
truthy (`if not all([...])`) and only then issues `pyodbc.connect`. -/
def connect_to_sql_server (env : String → Option String) :
    Except String NetworkAction :=
  let server := env "SQL_SERVER"
  let database := env "SQL_DATABASE"
  let username := env "SQL_USERNAME"
  let password := env "SQL_PASSWORD"
  if ¬ (pyTruthyOpt server && pyTruthyOpt database
        && pyTruthyOpt username && pyTruthyOpt password) then
    .error "Missing SQL Server credentials in .env file."
  else
    .ok (.pyodbcConnect
      ("DRIVER=\x7bODBC Driver 18 for SQL Server\x7d;SERVER=" ++ server.getD ""
        ++ ";DATABASE=" ++ database.getD "" ++ ";UID=" ++ username.getD ""
        ++ ";PWD=" ++ password.getD "" ++ ";TrustServerCertificate=yes;"))

/-- `load_data_from_databricks(catalog, schema, table)`: reads the three
warehouse variables and passes them straight to `databricks.sql.connect`
with no validation — the connection attempt is issued whatever `os.getenv`
returned. -/
def load_data_from_databricks (env : String → Option String)
    (catalog_name schema_name table_name : String) :
    Except String NetworkAction :=
  .ok (.databricksConnect (env "DATABRICKS_SERVER_HOSTNAME")
    (env "DATABRICKS_HTTP_PATH") (env "DATABRICKS_TOKEN")
    ("SELECT * FROM " ++ catalog_name ++ "." ++ schema_name ++ "." ++ table_name))

/-- The top-level stages of `main()` in their source order. -/
inductive Stage where
  | azureAuth
  | databricksAuth
  | sqlTest
  | load
  | sample
  | nlp
  | upsert
deriving DecidableEq, Repr

/-- How the script leaves `main()`: `exit(1)`, the early `return` inside the
NLP `except` handler, or falling off the end. -/
inductive ExitKind where
  | exitCode (n : Nat)
  | earlyReturn
  | normalEnd
deriving DecidableEq, Repr

/-- Success/failure of each fallible top-level operation of one run.
`loadedEmpty` is whether the loaded DataFrame was empty (`df.empty`);
`sampleOk` is whether `random_df_split(df, 20)` itself succeeds when `df`
is defined; `nlpOk` whether `run_all_nlp_analysis` succeeds when
`df_sample` is defined; `upsertOk` whether the write block succeeds. -/
structure RunCond where
  azureOk : Bool
  databricksOk : Bool
  sqlOk : Bool
  loadOk : Bool
  loadedEmpty : Bool
  sampleOk : Bool
  nlpOk : Bool
  upsertOk : Bool
deriving DecidableEq, Repr

/-- Control flow of `main()`: the stages attempted in order and the exit
kind.  Each authentication failure is `print` + `exit(1)`.  A load failure
is caught and the script proceeds (leaving `df` unbound, so the sampling
`try` then raises `NameError` and is also caught); the emptiness check after
loading only prints a message either way.  A failure inside the NLP `try`
(including `df_sample` being unbound) prints and `return`s, so the upsert
block is never reached.  A failure inside the upsert `try` is caught and the
script falls off the end. -/
def mainTrace (c : RunCond) : List Stage × ExitKind :=
  if ¬ c.azureOk then ([.azureAuth], .exitCode 1)
  else if ¬ c.databricksOk then ([.azureAuth, .databricksAuth], .exitCode 1)
  else if ¬ c.sqlOk then ([.azureAuth, .databricksAuth, .sqlTest], .exitCode 1)
  else
    let dfDefined := c.loadOk
    let sampleDefined := dfDefined && c.sampleOk
    if ¬ (sampleDefined && c.nlpOk) then
      ([.azureAuth, .databricksAuth, .sqlTest, .load, .sample, .nlp], .earlyReturn)
    else
      ([.azureAuth, .databricksAuth, .sqlTest, .load, .sample, .nlp, .upsert],
       .normalEnd)

/-- `query_database(agent, question)` of the chat script.  `agent.invoke`
may raise (the `.error` case); a successful invocation yields a response
dictionary, from which `response["output"]` is read — a missing key raises
`KeyError` inside the same `try`.  Both exception paths return
`(None, str(e))`; the success path returns `(output, None)`. -/
def query_database (agent : String → Except String (List (String × String)))
    (question : String) : Option String × Option String :=
  match agent question with
  | .ok response =>
    match response.lookup "output" with
    | Option.some out => (Option.some out, Option.none)
    | Option.none => (Option.none, Option.some "KeyError: 'output'")
  | .error e => (Option.none, Option.some e)

/-- The remote-interface contract of the spec, specialised to deterministic
per-document responses: a batch call returns one response document per input
document, in input order, and never raises. -/
def perDocSent (d : String → SentDoc) : List String → Except String (List SentDoc) :=
  fun batch => .ok (batch.map d)

/-- Deterministic per-document key-phrase responses as a batch oracle. -/
def perDocKP (d : String → KPDoc) : List String → Except String (List KPDoc) :=
  fun batch => .ok (batch.map d)

/-- Deterministic per-document entity responses as a batch oracle. -/
def perDocEnt (d : String → EntDoc) : List String → Except String (List EntDoc) :=
  fun batch => .ok (batch.map d)

/-- The key-phrase records one document contributes under a per-document
response function. -/
def kpDocRecs (d : String → KPDoc) (col : String) (t : String) (id : Nat) :
    List KPRec :=
  match d t with
  | .err _ => []
  | .ok phrases => phrases.map fun ph => ⟨id, ph, col⟩

/-- The entity records one document contributes under a per-document
response function. -/
def entDocRecs (d : String → EntDoc) (t : String) (id : Nat) : List EntRec :=
  match d t with
  | .err _ => []
  | .ok entities => entities.map fun e => ⟨id, e.text, e.category, e.confidence_score⟩

/-- The pandas sampler modelled in the C3 witness: a deterministic selection
of the first `k` rows, satisfying the `df.sample` contract. -/
def wSampler : Nat → List Row → List Row := fun k l => l.take k

/-- Concrete three-row DataFrame for the C3 witness. -/
def wDf3 : List Row :=
  [⟨1, Option.some "alpha"⟩, ⟨2, Option.none⟩, ⟨3, Option.some "gamma"⟩]

/-- Concrete row mapping for the C5 witness: a populated row whose job id is
7 and whose scalar cells are native strings. -/
def wRowC5 : String → PyVal := fun k =>
  if k = "Job Id" then PyVal.int 7 else PyVal.str k

/-- Concrete row mapping for the C6 witness: `latitude` and
`sentiment_score` are NaN, everything else is a native string. -/
def wRowC6 : String → PyVal := fun k =>
  if k = "latitude" ∨ k = "sentiment_score" then PyVal.nan else PyVal.str k

/-- Concrete batch oracle for the C1 witness: every document succeeds with a
fixed response, one per input document. -/
def wSentO : List String → Except String (List SentDoc) :=
  fun b => .ok (b.map fun _ => SentDoc.ok 1 0 0 "positive")

/-- Concrete two-row DataFrame for the C1 witness. -/
def wDfC1 : List Row := [⟨1, Option.some "great job"⟩, ⟨2, Option.none⟩]

/-- Concrete key-phrase oracle for the C2 witness: every document yields one
phrase equal to its text. -/
def wKpO : List String → Except String (List KPDoc) :=
  fun b => .ok (b.map fun t => KPDoc.ok [t])

/-- Concrete entity oracle for the C2 witness: every remote call raises. -/
def wEntO : List String → Except String (List EntDoc) :=
  fun _ => .error "connection reset"

/-- A per-document response function that (contrary to the service's actual
behaviour) returns a successful sentiment for the empty document. -/
def c4CexDoc : String → SentDoc := fun _ => SentDoc.ok 1 0 0 "positive"

/-- Two-row DataFrame whose first description is missing (so its text is the
empty string) for the C4 counterexample. -/
def c4CexDf : List Row := [⟨1, Option.none⟩, ⟨2, Option.some "x"⟩]

/-- Per-document sentiment responses for the C4 witness: the empty document
is rejected with the error flag, everything else succeeds. -/
def wDS : String → SentDoc := fun t =>
  if t = "" then SentDoc.err "Invalid document"
  else SentDoc.ok (9 / 10) (1 / 20) (1 / 20) "positive"

/-- Per-document key-phrase responses for the C4 witness. -/
def wDK : String → KPDoc := fun t =>
  if t = "" then KPDoc.err "Invalid document" else KPDoc.ok [t]

/-- Per-document entity responses for the C4 witness. -/
def wDE : String → EntDoc := fun t =>
  if t = "" then EntDoc.err "Invalid document"
  else EntDoc.ok [⟨t, "Skill", 4 / 5⟩]

/-- Row with an empty (NaN) description for the C9 scenario. -/
def r1C9 : Row := ⟨1, Option.none⟩

/-- Row with a non-empty description for the C9 scenario. -/
def r2C9 : Row := ⟨2, Option.some "We are hiring engineers"⟩

/-- Concrete sentiment oracle for the C9 witness. -/
def wSO9 : List String → Except String (List SentDoc) := fun b =>
  if b = ["We are hiring engineers"] then .ok [SentDoc.ok 1 0 0 "positive"]
  else .error "InvalidDocumentBatch"

/-- Concrete key-phrase oracle for the C9 witness: the empty document gets
the per-document error flag. -/
def wKpO9 : List String → Except String (List KPDoc) := fun b =>
  if b = [""] then .ok [KPDoc.err "Invalid document"]
  else .ok [KPDoc.ok ["hiring"]]

/-- Concrete entity oracle for the C9 witness: the all-empty batch raises. -/
def wEntO9 : List String → Except String (List EntDoc) := fun b =>
  if b = [""] then .error "empty batch"
  else .ok [EntDoc.ok [⟨"engineers", "Skill", 9 / 10⟩]]

/-! ### Theorems -/

theorem chunksOf_nil (bs : Nat) : chunksOf bs ([] : List α) = [] := by
  rw [chunksOf]; simp

theorem chunksOf_cons (bs : Nat) (hbs : bs ≠ 0) (x : α) (l : List α) :
    chunksOf bs (x :: l) = (x :: l).take bs :: chunksOf bs ((x :: l).drop bs) := by
  rw [chunksOf]; simp [hbs]

theorem chunksOf_ne_nil (bs : Nat) (hbs : bs ≠ 0) (l : List α) (hl : l ≠ []) :
    chunksOf bs l = l.take bs :: chunksOf bs (l.drop bs) := by
  rcases l with _ | ⟨x, xs⟩
  · exact absurd rfl hl
  · exact chunksOf_cons bs hbs x xs

theorem chunksOf_flatMap_length (bs : Nat) (hbs : bs ≠ 0)
    (f : List α → List β) (hf : ∀ c, (f c).length = c.length) (l : List α) :
    ((chunksOf bs l).flatMap f).length = l.length := by
  rcases l with _ | ⟨x, xs⟩
  · simp [chunksOf_nil]
  · rw [chunksOf_cons bs hbs x xs, List.flatMap_cons, List.length_append, hf,
      chunksOf_flatMap_length bs hbs f hf ((x :: xs).drop bs),
      List.length_take, List.length_drop]
    omega
termination_by l.length
decreasing_by
  simp only [List.length_drop, List.length_cons]
  omega

theorem chunksOf_flatMap_getElem (bs : Nat) (hbs : bs ≠ 0)
    (f : List α → List β) (hf : ∀ c, (f c).length = c.length)
    (l : List α) (i : Nat) (hi : i < l.length) :
    ((chunksOf bs l).flatMap f)[i]? = (f ((l.drop (bs * (i / bs))).take bs))[i % bs]? := by
  have aux : ∀ (n : Nat) (l : List α) (i : Nat), l.length ≤ n → i < l.length →
      ((chunksOf bs l).flatMap f)[i]? =
        (f ((l.drop (bs * (i / bs))).take bs))[i % bs]? := by
    intro n
    induction n with
    | zero =>
      intro l i hl hi
      omega
    | succ n ih =>
      intro l i hl hi
      rcases l with _ | ⟨x, xs⟩
      · simp at hi
      · rw [chunksOf_cons bs hbs x xs, List.flatMap_cons]
        by_cases h : i < bs
        · have hdiv : i / bs = 0 := Nat.div_eq_of_lt h
          have hmod : i % bs = i := Nat.mod_eq_of_lt h
          rw [hdiv, hmod, Nat.mul_zero, List.drop_zero, List.getElem?_append,
            if_pos]
          rw [hf, List.length_take]
          simp only [List.length_cons] at hi ⊢
          omega
        · push_neg at h
          have hlentake : ((x :: xs).take bs).length = bs := by
            rw [List.length_take]
            simp only [List.length_cons] at hi ⊢
            omega
          rw [List.getElem?_append_right (by rw [hf, hlentake]; omega), hf, hlentake]
          have hrec := ih ((x :: xs).drop bs) (i - bs)
            (by simp only [List.length_drop, List.length_cons] at hl ⊢; omega)
            (by simp only [List.length_drop, List.length_cons] at hi ⊢; omega)
          rw [hrec, List.drop_drop]
          obtain ⟨j, rfl⟩ : ∃ j, i = j + bs := ⟨i - bs, by omega⟩
          have hbs' : 0 < bs := Nat.pos_of_ne_zero hbs
          rw [Nat.add_sub_cancel, Nat.add_mod_right, Nat.add_div_right j hbs',
            Nat.mul_add, Nat.mul_one, Nat.add_comm (bs * (j / bs)) bs]
  exact aux l.length l i le_rfl hi

theorem chunksOf_subset (bs : Nat) (l : List α) (c : List α)
    (hc : c ∈ chunksOf bs l) (x : α) (hx : x ∈ c) : x ∈ l := by
  have aux : ∀ (n : Nat) (l : List α), l.length ≤ n →
      ∀ c ∈ chunksOf bs l, ∀ x ∈ c, x ∈ l := by
    intro n
    induction n with
    | zero =>
      intro l hl c hc x hx
      rcases l with _ | ⟨y, ys⟩
      · rw [chunksOf_nil] at hc; simp at hc
      · simp at hl
    | succ n ih =>
      intro l hl c hc x hx
      rcases l with _ | ⟨y, ys⟩
      · rw [chunksOf_nil] at hc; simp at hc
      · by_cases hbs : bs = 0
        · rw [hbs, chunksOf] at hc; simp at hc
        · rw [chunksOf_cons bs hbs y ys] at hc
          rcases List.mem_cons.mp hc with h | h
          · exact List.take_subset bs (y :: ys) (h ▸ hx)
          · exact List.drop_subset bs (y :: ys)
              (ih ((y :: ys).drop bs)
                (by simp only [List.length_drop, List.length_cons] at hl ⊢; omega)
                c h x hx)
  exact aux l.length l le_rfl c hc x hx

theorem chunksOf_zero_bs (l : List α) : chunksOf 0 l = [] := by
  rw [chunksOf]; simp

theorem chunksOf_length_eq (bs : Nat) (l₁ : List α) (l₂ : List β)
    (h : l₁.length = l₂.length) :
    (chunksOf bs l₁).length = (chunksOf bs l₂).length := by
  have aux : ∀ (n : Nat) (l₁ : List α) (l₂ : List β), l₁.length ≤ n →
      l₁.length = l₂.length →
      (chunksOf bs l₁).length = (chunksOf bs l₂).length := by
    intro n
    induction n with
    | zero =>
      intro l₁ l₂ hl h
      rcases l₁ with _ | ⟨x, xs⟩
      · rcases l₂ with _ | ⟨y, ys⟩
        · rw [chunksOf_nil, chunksOf_nil]; rfl
        · simp at h
      · simp at hl
    | succ n ih =>
      intro l₁ l₂ hl h
      rcases l₁ with _ | ⟨x, xs⟩
      · rcases l₂ with _ | ⟨y, ys⟩
        · rw [chunksOf_nil, chunksOf_nil]; rfl
        · simp at h
      · rcases l₂ with _ | ⟨y, ys⟩
        · simp at h
        · by_cases hbs : bs = 0
          · rw [hbs, chunksOf_zero_bs, chunksOf_zero_bs]; rfl
          · rw [chunksOf_cons bs hbs x xs, chunksOf_cons bs hbs y ys]
            simp only [List.length_cons]
            exact congrArg Nat.succ (ih ((x :: xs).drop bs) ((y :: ys).drop bs)
              (by simp only [List.length_drop, List.length_cons] at hl ⊢; omega)
              (by simp only [List.length_drop]; omega))
  exact aux l₁.length l₁ l₂ le_rfl h

theorem zip_take_drop (bs : Nat) (l₁ : List α) (l₂ : List β)
    (h : l₁.length = l₂.length) :
    l₁.zip l₂ = (l₁.take bs).zip (l₂.take bs) ++ (l₁.drop bs).zip (l₂.drop bs) := by
  conv_lhs => rw [← List.take_append_drop bs l₁, ← List.take_append_drop bs l₂]
  rw [List.zip_append (by simp only [List.length_take]; omega)]

theorem sentResults_perDoc (d : String → SentDoc) (bs : Nat) (hbs : bs ≠ 0)
    (hempty : (d "").is_error = true) (texts : List String) :
    sentResults (perDocSent d) bs texts = texts.map fun t => sentPair (d t) := by
  have hpair : sentPair (d "") = (Option.none, Option.none) := by
    rcases hd : d "" with m | ⟨p, nu, ng, s⟩
    · rfl
    · rw [hd] at hempty; simp [SentDoc.is_error] at hempty
  have aux : ∀ (n : Nat) (texts : List String), texts.length ≤ n →
      sentResults (perDocSent d) bs texts = texts.map fun t => sentPair (d t) := by
    intro n
    induction n with
    | zero =>
      intro texts hl
      rcases texts with _ | ⟨t, ts⟩
      · rw [sentResults, chunksOf_nil]; rfl
      · simp at hl
    | succ n ih =>
      intro texts hl
      rcases texts with _ | ⟨t, ts⟩
      · rw [sentResults, chunksOf_nil]; rfl
      · rw [sentResults, chunksOf_cons bs hbs t ts, List.flatMap_cons]
        have htail : ((chunksOf bs ((t :: ts).drop bs)).flatMap fun b =>
            (processSentChunk (perDocSent d) b).1) =
            ((t :: ts).drop bs).map fun t => sentPair (d t) := by
          rw [← sentResults]
          exact ih ((t :: ts).drop bs)
            (by simp only [List.length_drop, List.length_cons] at hl ⊢; omega)
        rw [htail]
        have hhead : (processSentChunk (perDocSent d) ((t :: ts).take bs)).1 =
            ((t :: ts).take bs).map fun t => sentPair (d t) := by
          rw [processSentChunk]
          by_cases hany : ((t :: ts).take bs).any pyTruthy
          · rw [if_neg (by simp [hany])]
            simp only [perDocSent, List.map_map]
            rfl
          · rw [if_pos (by simp [hany])]
            simp only
            refine List.map_congr_left ?_
            intro a ha
            have : pyTruthy a = false := by
              by_contra hpa
              rw [Bool.not_eq_false] at hpa
              exact hany (List.any_eq_true.mpr ⟨a, ha, hpa⟩)
            have ha0 : a = "" := by
              simp [pyTruthy] at this
              exact this
            rw [ha0, hpair]
        rw [hhead, ← List.map_append, List.take_append_drop]
  exact aux texts.length texts le_rfl

theorem kpChunks_perDoc (d : String → KPDoc) (col : String) (bs : Nat)
    (hbs : bs ≠ 0) (ts : List String) (ids : List Nat)
    (h : ts.length = ids.length) :
    (((chunksOf bs ts).zip (chunksOf bs ids)).flatMap fun p =>
        kpChunk (perDocKP d) col p.1 p.2) =
      (ts.zip ids).flatMap fun p => kpDocRecs d col p.1 p.2 := by
  have aux : ∀ (n : Nat) (ts : List String) (ids : List Nat),
      ts.length ≤ n → ts.length = ids.length →
      (((chunksOf bs ts).zip (chunksOf bs ids)).flatMap fun p =>
          kpChunk (perDocKP d) col p.1 p.2) =
        (ts.zip ids).flatMap fun p => kpDocRecs d col p.1 p.2 := by
    intro n
    induction n with
    | zero =>
      intro ts ids hl h
      rcases ts with _ | ⟨t, ts'⟩
      · rcases ids with _ | ⟨i, ids'⟩
        · rw [chunksOf_nil, chunksOf_nil]; rfl
        · simp at h
      · simp at hl
    | succ n ih =>
      intro ts ids hl h
      rcases ts with _ | ⟨t, ts'⟩
      · rcases ids with _ | ⟨i, ids'⟩
        · rw [chunksOf_nil, chunksOf_nil]; rfl
        · simp at h
      · rcases ids with _ | ⟨i, ids'⟩
        · simp at h
        · rw [chunksOf_cons bs hbs t ts', chunksOf_cons bs hbs i ids',
            List.zip_cons_cons, List.flatMap_cons]
          have hhead : kpChunk (perDocKP d) col ((t :: ts').take bs)
              ((i :: ids').take bs) =
              (((t :: ts').take bs).zip ((i :: ids').take bs)).flatMap fun p =>
                kpDocRecs d col p.1 p.2 := by
            rw [kpChunk]
            simp only [perDocKP, List.zip_map_left, List.flatMap_map]
            rfl
          have htail := ih ((t :: ts').drop bs) ((i :: ids').drop bs)
            (by simp only [List.length_drop, List.length_cons] at hl ⊢; omega)
            (by simp only [List.length_drop]; omega)
          rw [hhead, htail,
            zip_take_drop bs (t :: ts') (i :: ids') h, List.flatMap_append]
  exact aux ts.length ts ids le_rfl h

theorem entChunks_perDoc (d : String → EntDoc) (bs : Nat)
    (hbs : bs ≠ 0) (ts : List String) (ids : List Nat)
    (h : ts.length = ids.length) :
    (((chunksOf bs ts).zip (chunksOf bs ids)).flatMap fun p =>
        entChunk (perDocEnt d) p.1 p.2) =
      (ts.zip ids).flatMap fun p => entDocRecs d p.1 p.2 := by
  have aux : ∀ (n : Nat) (ts : List String) (ids : List Nat),
      ts.length ≤ n → ts.length = ids.length →
      (((chunksOf bs ts).zip (chunksOf bs ids)).flatMap fun p =>
          entChunk (perDocEnt d) p.1 p.2) =
        (ts.zip ids).flatMap fun p => entDocRecs d p.1 p.2 := by
    intro n
    induction n with
    | zero =>
      intro ts ids hl h
      rcases ts with _ | ⟨t, ts'⟩
      · rcases ids with _ | ⟨i, ids'⟩
        · rw [chunksOf_nil, chunksOf_nil]; rfl
        · simp at h
      · simp at hl
    | succ n ih =>
      intro ts ids hl h
      rcases ts with _ | ⟨t, ts'⟩
      · rcases ids with _ | ⟨i, ids'⟩
        · rw [chunksOf_nil, chunksOf_nil]; rfl
        · simp at h
      · rcases ids with _ | ⟨i, ids'⟩
        · simp at h
        · rw [chunksOf_cons bs hbs t ts', chunksOf_cons bs hbs i ids',
            List.zip_cons_cons, List.flatMap_cons]
          have hhead : entChunk (perDocEnt d) ((t :: ts').take bs)
              ((i :: ids').take bs) =
              (((t :: ts').take bs).zip ((i :: ids').take bs)).flatMap fun p =>
                entDocRecs d p.1 p.2 := by
            rw [entChunk]
            simp only [perDocEnt, List.zip_map_left, List.flatMap_map]
            rfl
          have htail := ih ((t :: ts').drop bs) ((i :: ids').drop bs)
            (by simp only [List.length_drop, List.length_cons] at hl ⊢; omega)
            (by simp only [List.length_drop]; omega)
          rw [hhead, htail,
            zip_take_drop bs (t :: ts') (i :: ids') h, List.flatMap_append]
  exact aux ts.length ts ids le_rfl h

theorem kpChunk_jobId_mem (oracle : List String → Except String (List KPDoc))
    (col : String) (bt : List String) (bi : List Nat) (r : KPRec)
    (hr : r ∈ kpChunk oracle col bt bi) : r.job_id ∈ bi := by
  rw [kpChunk] at hr
  rcases horacle : oracle bt with e | docs
  · rw [horacle] at hr; simp at hr
  · rw [horacle] at hr
    obtain ⟨p, hp, hrp⟩ := List.mem_flatMap.mp hr
    rcases hdoc : p.1 with m | phrases
    · rw [hdoc] at hrp; simp at hrp
    · rw [hdoc] at hrp
      obtain ⟨ph, _, hph⟩ := List.mem_map.mp hrp
      have : r.job_id = p.2 := by rw [← hph]
      rw [this]
      obtain ⟨p1, p2⟩ := p
      exact (List.of_mem_zip hp).2

theorem entChunk_jobId_mem (oracle : List String → Except String (List EntDoc))
    (bt : List String) (bi : List Nat) (r : EntRec)
    (hr : r ∈ entChunk oracle bt bi) : r.job_id ∈ bi := by
  rw [entChunk] at hr
  rcases horacle : oracle bt with e | docs
  · rw [horacle] at hr; simp at hr
  · rw [horacle] at hr
    obtain ⟨p, hp, hrp⟩ := List.mem_flatMap.mp hr
    rcases hdoc : p.1 with m | entities
    · rw [hdoc] at hrp; simp at hrp
    · rw [hdoc] at hrp
      obtain ⟨e, _, he⟩ := List.mem_map.mp hrp
      have : r.job_id = p.2 := by rw [← he]
      rw [this]
      obtain ⟨p1, p2⟩ := p
      exact (List.of_mem_zip hp).2

theorem extract_key_phrases_jobId_mem
    (oracle : List String → Except String (List KPDoc)) (df : List Row)
    (col : String) (bs : Nat) (hbs : bs ≠ 0) (out : List KPRec)
    (hout : extract_key_phrases oracle df col bs = .ok out)
    (r : KPRec) (hr : r ∈ out) : r.job_id ∈ df.map Row.jobId := by
  rw [extract_key_phrases, if_neg hbs] at hout
  simp only [Except.ok.injEq] at hout
  rw [← hout] at hr
  obtain ⟨p, hp, hrp⟩ := List.mem_flatMap.mp hr
  obtain ⟨p1, p2⟩ := p
  have hmem : p2 ∈ chunksOf bs (df.map Row.jobId) := (List.of_mem_zip hp).2
  exact chunksOf_subset bs (df.map Row.jobId) p2 hmem r.job_id
    (kpChunk_jobId_mem oracle col p1 p2 r hrp)

theorem recognize_entities_jobId_mem
    (oracle : List String → Except String (List EntDoc)) (df : List Row)
    (bs : Nat) (hbs : bs ≠ 0) (out : List EntRec)
    (hout : recognize_entities oracle df bs = .ok out)
    (r : EntRec) (hr : r ∈ out) : r.job_id ∈ df.map Row.jobId := by
  rw [recognize_entities, if_neg hbs] at hout
  simp only [Except.ok.injEq] at hout
  rw [← hout] at hr
  obtain ⟨p, hp, hrp⟩ := List.mem_flatMap.mp hr
  obtain ⟨p1, p2⟩ := p
  have hmem : p2 ∈ chunksOf bs (df.map Row.jobId) := (List.of_mem_zip hp).2
  exact chunksOf_subset bs (df.map Row.jobId) p2 hmem r.job_id
    (entChunk_jobId_mem oracle p1 p2 r hrp)

theorem processSentChunk_length
    (oracle : List String → Except String (List SentDoc))
    (hlen : ∀ b docs, oracle b = .ok docs → docs.length = b.length)
    (b : List String) : (processSentChunk oracle b).1.length = b.length := by
  rw [processSentChunk]
  by_cases hany : b.any pyTruthy
  · rw [if_neg (by simp [hany])]
    rcases horacle : oracle b with e | docs
    · simp
    · simp [hlen b docs horacle]
  · rw [if_pos (by simp [hany])]
    simp

theorem sentResults_length
    (oracle : List String → Except String (List SentDoc))
    (hlen : ∀ b docs, oracle b = .ok docs → docs.length = b.length)
    (bs : Nat) (hbs : bs ≠ 0) (texts : List String) :
    (sentResults oracle bs texts).length = texts.length :=
  chunksOf_flatMap_length bs hbs _ (processSentChunk_length oracle hlen) texts

theorem chunksOf_one (l : List α) : chunksOf 1 l = l.map fun x => [x] := by
  have aux : ∀ (n : Nat) (l : List α), l.length ≤ n →
      chunksOf 1 l = l.map fun x => [x] := by
    intro n
    induction n with
    | zero =>
      intro l hl
      rcases l with _ | ⟨x, xs⟩
      · rw [chunksOf_nil]; rfl
      · simp at hl
    | succ n ih =>
      intro l hl
      rcases l with _ | ⟨x, xs⟩
      · rw [chunksOf_nil]; rfl
      · rw [chunksOf_cons 1 (by omega) x xs]
        simp only [List.take_succ_cons, List.take_zero, List.drop_succ_cons,
          List.drop_zero, List.map_cons]
        rw [ih xs (by simp at hl; omega)]
  exact aux l.length l le_rfl

theorem chunksOf_of_length_le (bs : Nat) (hbs : bs ≠ 0) (l : List α)
    (hl : l ≠ []) (h : l.length ≤ bs) : chunksOf bs l = [l] := by
  rw [chunksOf_ne_nil bs hbs l hl, List.take_of_length_le h,
    List.drop_eq_nil_of_le h, chunksOf_nil]

theorem to_python_missing (v : PyVal) (h : v.isMissing) : to_python v = .none := by
  rcases h with h | h <;> rw [h] <;> rfl

/-- Claim C3: for every DataFrame `df` and every `k ≤ df.length`,
`random_df_split` returns exactly the sampler's `k` rows — each one a row of
`df`, of length `k`, and identical on every call with the same input (the
fixed-seed pandas sampler is a deterministic function); for `k` strictly
greater than the number of rows it raises the descriptive `ValueError`. -/
theorem c3_random_df_split_contract (sampler : Nat → List Row → List Row)
    (hlen : ∀ k l, k ≤ l.length → (sampler k l).length = k)
    (hsub : ∀ k l r, r ∈ sampler k l → r ∈ l)
    (df : List Row) (k : Nat) :
    (k ≤ df.length →
      random_df_split sampler df k = .ok (sampler k df) ∧
      (sampler k df).length = k ∧
      (∀ r ∈ sampler k df, r ∈ df) ∧
      ∀ out₁ out₂, random_df_split sampler df k = .ok out₁ →
        random_df_split sampler df k = .ok out₂ → out₁ = out₂) ∧
    (df.length < k → random_df_split sampler df k =
      .error "numrows must be less than or equal to the number of rows in the DataFrame.") := by
  constructor
  · intro hk
    refine ⟨?_, hlen k df hk, fun r hr => hsub k df r hr, ?_⟩
    · rw [random_df_split, if_neg (by omega)]
    · intro out₁ out₂ h₁ h₂
      rw [h₁] at h₂
      exact (Except.ok.injEq _ _ ▸ h₂).symm ▸ rfl
  · intro hk
    rw [random_df_split, if_pos (by omega)]

/-- Witness for C3 at the concrete sampler and three-row DataFrame. -/
theorem c3_random_df_split_contract_witness :
    (random_df_split wSampler wDf3 2 = .ok (wSampler 2 wDf3) ∧
      (wSampler 2 wDf3).length = 2 ∧
      (∀ r ∈ wSampler 2 wDf3, r ∈ wDf3) ∧
      ∀ out₁ out₂, random_df_split wSampler wDf3 2 = .ok out₁ →
        random_df_split wSampler wDf3 2 = .ok out₂ → out₁ = out₂) ∧
    random_df_split wSampler wDf3 4 =
      .error "numrows must be less than or equal to the number of rows in the DataFrame." := by
  have hlen : ∀ k l, k ≤ l.length → (wSampler k l).length = k := by
    intro k l h
    simp only [wSampler, List.length_take]
    omega
  have hsub : ∀ k l r, r ∈ wSampler k l → r ∈ l := by
    intro k l r hr
    exact List.take_subset k l hr
  exact ⟨(c3_random_df_split_contract wSampler hlen hsub wDf3 2).1 (by simp [wDf3]),
    (c3_random_df_split_contract wSampler hlen hsub wDf3 4).2 (by simp [wDf3])⟩

/-- Claim C5: the parameter tuple always has all 26 positions, and for a job
with no associated key-phrase records the key-phrases parameter (position 23)
is the literal string `"[]"` — never null, never omitted; likewise the
entities parameter (position 24). -/
theorem c5_upsert_empty_json (row : String → PyVal)
    (kps : List KPRec) (ents : List EntRec) :
    (upsert_job_params row kps ents).length = 26 ∧
    ((kps.filter fun r => pyEqNat (row "Job Id") r.job_id) = [] →
      (upsert_job_params row kps ents)[23]? = Option.some (PyVal.str "[]")) ∧
    ((ents.filter fun r => pyEqNat (row "Job Id") r.job_id) = [] →
      (upsert_job_params row kps ents)[24]? = Option.some (PyVal.str "[]")) := by
  have hlen : ((rowKeys.map fun k => to_python (row k))).length = 23 := by
    rw [List.length_map]; rfl
  refine ⟨?_, ?_, ?_⟩
  · rw [upsert_job_params]
    simp only [List.length_append, hlen]
    rfl
  · intro h
    rw [upsert_job_params]
    simp only [h, List.isEmpty_nil, not_true_eq_false, if_false]
    rw [List.getElem?_append_right (by rw [hlen]), hlen]
    rfl
  · intro h
    rw [upsert_job_params]
    simp only [h, List.isEmpty_nil, not_true_eq_false, if_false]
    rw [List.getElem?_append_right (by rw [hlen]; omega), hlen]
    rfl

/-- Witness for C5: the concrete row with no associated phrase or entity
records gets the literal `"[]"` at both JSON positions. -/
theorem c5_upsert_empty_json_witness :
    (upsert_job_params wRowC5 [] []).length = 26 ∧
    (upsert_job_params wRowC5 [] [])[23]? = Option.some (PyVal.str "[]") ∧
    (upsert_job_params wRowC5 [] [])[24]? = Option.some (PyVal.str "[]") :=
  ⟨(c5_upsert_empty_json wRowC5 [] []).1,
   (c5_upsert_empty_json wRowC5 [] []).2.1 rfl,
   (c5_upsert_empty_json wRowC5 [] []).2.2 rfl⟩

/-- Claim C6: every missing (None or NaN) value among the scalar fields the
upsert submits — including a missing confidence value, which is the
`sentiment_score` parameter — maps to the explicit null marker `PyVal.none`
in the parameter tuple, never to a default number; numpy wrapper values are
unwrapped to primitives by `to_python`. -/
theorem c6_upsert_missing_null (row : String → PyVal)
    (kps : List KPRec) (ents : List EntRec) :
    (∀ (i : Nat) (k : String), rowKeys[i]? = Option.some k → (row k).isMissing →
      (upsert_job_params row kps ents)[i]? = Option.some PyVal.none) ∧
    ((row "sentiment_score").isMissing →
      (upsert_job_params row kps ents)[25]? = Option.some PyVal.none) ∧
    (∀ n : Int, to_python (PyVal.npInt n) = PyVal.int n) ∧
    (∀ q : Rat, to_python (PyVal.npFloat q) = PyVal.float q) ∧
    (∀ v : PyVal, v.isMissing → to_python v = PyVal.none) := by
  have hlen : ((rowKeys.map fun k => to_python (row k))).length = 23 := by
    rw [List.length_map]; rfl
  refine ⟨?_, ?_, fun n => rfl, fun q => rfl, to_python_missing⟩
  · intro i k hk hm
    have hi : i < rowKeys.length := (List.getElem?_eq_some_iff.mp hk).1
    rw [upsert_job_params, List.getElem?_append,
      if_pos (by rw [hlen]; exact hi)]
    rw [List.getElem?_map, hk]
    show Option.some (to_python (row k)) = Option.some PyVal.none
    rw [to_python_missing (row k) hm]
  · intro hm
    rw [upsert_job_params,
      List.getElem?_append_right (by rw [hlen]; omega), hlen]
    show Option.some (to_python (row "sentiment_score")) = Option.some PyVal.none
    rw [to_python_missing _ hm]

/-- Witness for C6: `latitude` (position 7) and `sentiment_score`
(position 25) are NaN in the concrete row and both become the null marker;
numpy wrappers unwrap. -/
theorem c6_upsert_missing_null_witness :
    (upsert_job_params wRowC6 [] [])[7]? = Option.some PyVal.none ∧
    (upsert_job_params wRowC6 [] [])[25]? = Option.some PyVal.none ∧
    to_python (PyVal.npInt 7) = PyVal.int 7 ∧
    to_python (PyVal.npFloat (3 / 2)) = PyVal.float (3 / 2) :=
  ⟨(c6_upsert_missing_null wRowC6 [] []).1 7 "latitude" rfl (Or.inr rfl),
   (c6_upsert_missing_null wRowC6 [] []).2.1 (Or.inr rfl),
   (c6_upsert_missing_null wRowC6 [] []).2.2.1 7,
   (c6_upsert_missing_null wRowC6 [] []).2.2.2.1 (3 / 2)⟩

/-- Claim C7 (amended): for the language-service group and the SQL-server
group, an absent variable makes the setup function raise its descriptive
`ValueError` — the returned value is the error, so no network action is ever
issued.  (The claim as stated also covered `load_data_from_databricks`,
which performs no such check: see the counterexample.) -/
theorem c7_env_guards (env : String → Option String) :
    ((env "LanguageServiceEndpoint" = Option.none ∨
      env "LanguageServiceAPI" = Option.none) →
      authenticate_azure_client env =
        .error "Please set the LanguageServiceEndpoint and LanguageServiceAPI in the .env file.") ∧
    ((env "SQL_SERVER" = Option.none ∨ env "SQL_DATABASE" = Option.none ∨
      env "SQL_USERNAME" = Option.none ∨ env "SQL_PASSWORD" = Option.none) →
      connect_to_sql_server env = .error "Missing SQL Server credentials in .env file.") := by
  constructor
  · intro h
    rw [authenticate_azure_client]
    rcases h with h | h <;> rw [h] <;> simp [pyTruthyOpt]
  · intro h
    rw [connect_to_sql_server]
    rcases h with h | h | h | h <;> rw [h] <;> simp [pyTruthyOpt]

/-- Witness for C7 at the empty environment. -/
theorem c7_env_guards_witness :
    authenticate_azure_client (fun _ => Option.none) =
      .error "Please set the LanguageServiceEndpoint and LanguageServiceAPI in the .env file." ∧
    connect_to_sql_server (fun _ => Option.none) =
      .error "Missing SQL Server credentials in .env file." :=
  ⟨(c7_env_guards fun _ => Option.none).1 (Or.inl rfl),
   (c7_env_guards fun _ => Option.none).2 (Or.inl rfl)⟩

/-- Counterexample for C7 as stated: with every warehouse variable absent,
`load_data_from_databricks` raises nothing — it issues the
`databricks.sql.connect` network attempt with the missing credentials. -/
theorem c7_databricks_no_guard_cex :
    load_data_from_databricks (fun _ => Option.none)
        "workspace" "default" "job_descriptions" =
      .ok (.databricksConnect Option.none Option.none Option.none
        "SELECT * FROM workspace.default.job_descriptions") := rfl

/-- Claim C10: `query_database` returns a pair of which exactly one
component is non-null: the agent's textual output on success, the exception
rendered as a string when the agent raises, with nothing propagating. -/
theorem c10_query_database_exclusive
    (agent : String → Except String (List (String × String))) (q : String) :
    (((query_database agent q).1.isSome = true ∧
        (query_database agent q).2 = Option.none) ∨
      ((query_database agent q).1 = Option.none ∧
        (query_database agent q).2.isSome = true)) ∧
    (∀ resp out, agent q = .ok resp → resp.lookup "output" = Option.some out →
      query_database agent q = (Option.some out, Option.none)) ∧
    (∀ e, agent q = .error e →
      query_database agent q = (Option.none, Option.some e)) := by
  refine ⟨?_, ?_, ?_⟩
  · rcases h : agent q with e | resp
    · right
      simp [query_database, h]
    · rcases hl : resp.lookup "output" with _ | out
      · right
        simp [query_database, h, hl]
      · left
        simp [query_database, h, hl]
  · intro resp out h hl
    simp [query_database, h, hl]
  · intro e h
    simp [query_database, h]

/-- Claim C8 (amended): `exit(1)` happens exactly on an authentication
failure; once the authentications pass, the load, sample and NLP stages are
always attempted (load/sample failures are caught and the next stage still
runs), and the emptiness flag after loading changes nothing; but a failure
of the NLP stage (including one induced by an earlier load/sample failure)
makes `main` return early, so the write stage is attempted exactly when
every stage up to and including NLP succeeded.  An upsert failure is caught
and does not change how the script ends. -/
theorem c8_main_control_flow (c : RunCond) :
    ((mainTrace c).2 = .exitCode 1 ↔
      ¬(c.azureOk = true ∧ c.databricksOk = true ∧ c.sqlOk = true)) ∧
    (c.azureOk = true ∧ c.databricksOk = true ∧ c.sqlOk = true →
      Stage.load ∈ (mainTrace c).1 ∧ Stage.sample ∈ (mainTrace c).1 ∧
        Stage.nlp ∈ (mainTrace c).1) ∧
    (Stage.upsert ∈ (mainTrace c).1 ↔
      c.azureOk = true ∧ c.databricksOk = true ∧ c.sqlOk = true ∧
        c.loadOk = true ∧ c.sampleOk = true ∧ c.nlpOk = true) ∧
    ((mainTrace c).2 = .earlyReturn ↔
      (c.azureOk = true ∧ c.databricksOk = true ∧ c.sqlOk = true) ∧
        ¬(c.loadOk = true ∧ c.sampleOk = true ∧ c.nlpOk = true)) ∧
    mainTrace {c with loadedEmpty := true} = mainTrace {c with loadedEmpty := false} ∧
    (mainTrace {c with upsertOk := true}).2 = (mainTrace {c with upsertOk := false}).2 := by
  obtain ⟨a, d, s, l, e, sp, n, u⟩ := c
  cases a <;> cases d <;> cases s <;> cases l <;> cases sp <;> cases n <;>
    simp [mainTrace]

/-- Counterexample for C8 as stated: a run whose authentications, load and
sample all succeed but whose NLP stage fails ends with the early `return`,
and the write stage is never attempted — a non-authentication failure does
prevent a subsequent stage. -/
theorem c8_nlp_failure_blocks_write_cex :
    mainTrace ⟨true, true, true, true, false, true, false, true⟩ =
      ([.azureAuth, .databricksAuth, .sqlTest, .load, .sample, .nlp],
        .earlyReturn) ∧
    (mainTrace ⟨true, true, true, true, false, true, false, true⟩).1.contains
      Stage.upsert = false := by
  constructor
  · rfl
  · rfl

/-- Claim C1: under the remote interface contract (one response document per
input document), `analyze_sentiment` on an `n`-row DataFrame returns exactly
`n` `(score, label)` pairs attached to the input rows in input order; the
pair at index `i` is determined by the batch containing `i` alone (at offset
`i % bs`), so a failing batch leaves every later position unchanged; and
when the remote call for the batch containing `i` raises, position `i`
receives `(null, null)`. -/
theorem c1_analyze_sentiment_shape
    (oracle : List String → Except String (List SentDoc)) (df : List Row)
    (bs : Nat) (hbs : bs ≠ 0)
    (hlen : ∀ b docs, oracle b = .ok docs → docs.length = b.length) :
    ∃ out, analyze_sentiment oracle df bs = .ok out ∧
      out.length = df.length ∧
      out.map Prod.fst = df ∧
      (∀ i : Nat, i < df.length →
        out[i]?.map Prod.snd =
          ((processSentChunk oracle
            (((df.map rowText).drop (bs * (i / bs))).take bs)).1)[i % bs]?) ∧
      (∀ (i : Nat) (e : String), i < df.length →
        oracle (((df.map rowText).drop (bs * (i / bs))).take bs) = .error e →
        out[i]?.map Prod.snd = Option.some (Option.none, Option.none)) := by
  have hplen : (sentResults oracle bs (df.map rowText)).length = df.length := by
    rw [sentResults_length oracle hlen bs hbs, List.length_map]
  have hout : analyze_sentiment oracle df bs =
      .ok (df.zip (sentResults oracle bs (df.map rowText))) := by
    rw [analyze_sentiment, if_neg hbs]
    simp only [hplen, if_pos]
  refine ⟨df.zip (sentResults oracle bs (df.map rowText)), hout, ?_, ?_, ?_, ?_⟩
  · rw [List.length_zip, hplen]
    omega
  · exact List.map_fst_zip _ _ (by rw [hplen])
  · intro i hi
    have hiz : i < (df.zip (sentResults oracle bs (df.map rowText))).length := by
      rw [List.length_zip, hplen]
      omega
    rw [List.getElem?_eq_getElem hiz, List.getElem_zip]
    show Option.some (sentResults oracle bs (df.map rowText))[i] = _
    rw [← List.getElem?_eq_getElem (by rw [hplen]; omega), sentResults,
      chunksOf_flatMap_getElem bs hbs _ (processSentChunk_length oracle hlen)
        (df.map rowText) i (by rw [List.length_map]; omega)]
  · intro i e hi horacle
    have hiz : i < (df.zip (sentResults oracle bs (df.map rowText))).length := by
      rw [List.length_zip, hplen]
      omega
    rw [List.getElem?_eq_getElem hiz, List.getElem_zip]
    show Option.some (sentResults oracle bs (df.map rowText))[i] = _
    rw [← List.getElem?_eq_getElem (by rw [hplen]; omega), sentResults,
      chunksOf_flatMap_getElem bs hbs _ (processSentChunk_length oracle hlen)
        (df.map rowText) i (by rw [List.length_map]; omega)]
    set chunk := (((df.map rowText).drop (bs * (i / bs))).take bs) with hchunk
    have hchunklen : i % bs < chunk.length := by
      rw [hchunk, List.length_take, List.length_drop, List.length_map]
      have hdm := Nat.div_add_mod i bs
      have hmod : i % bs < bs := Nat.mod_lt i (Nat.pos_of_ne_zero hbs)
      have hmul : bs * (i / bs) ≤ i := by omega
      omega
    have hproc : (processSentChunk oracle chunk).1 =
        chunk.map fun _ => (Option.none, Option.none) := by
      rw [processSentChunk]
      by_cases hany : chunk.any pyTruthy
      · rw [if_neg (by simp [hany]), horacle]
      · rw [if_pos (by simp [hany])]
    rw [hproc, List.getElem?_map,
      List.getElem?_eq_getElem hchunklen]
    rfl

/-- Witness for C1 at the concrete always-succeeding oracle and two-row
DataFrame with batch size 5. -/
theorem c1_analyze_sentiment_shape_witness :
    ∃ out, analyze_sentiment wSentO wDfC1 5 = .ok out ∧
      out.length = wDfC1.length ∧
      out.map Prod.fst = wDfC1 ∧
      (∀ i : Nat, i < wDfC1.length →
        out[i]?.map Prod.snd =
          ((processSentChunk wSentO
            (((wDfC1.map rowText).drop (5 * (i / 5))).take 5)).1)[i % 5]?) ∧
      (∀ (i : Nat) (e : String), i < wDfC1.length →
        wSentO (((wDfC1.map rowText).drop (5 * (i / 5))).take 5) = .error e →
        out[i]?.map Prod.snd = Option.some (Option.none, Option.none)) :=
  c1_analyze_sentiment_shape wSentO wDfC1 5 (by omega)
    (by
      intro b docs h
      rw [wSentO, Except.ok.injEq] at h
      rw [← h, List.length_map])

/-- Claim C2: every record emitted by `extract_key_phrases` and by
`recognize_entities` carries a job id taken from the input rows, and a batch
whose remote call raises contributes zero records. -/
theorem c2_extraction_jobids
    (kpO : List String → Except String (List KPDoc))
    (entO : List String → Except String (List EntDoc))
    (df : List Row) (col : String) (bs : Nat) (hbs : bs ≠ 0) :
    (∃ out, extract_key_phrases kpO df col bs = .ok out ∧
      ∀ r ∈ out, r.job_id ∈ df.map Row.jobId) ∧
    (∃ out, recognize_entities entO df bs = .ok out ∧
      ∀ r ∈ out, r.job_id ∈ df.map Row.jobId) ∧
    (∀ (bt : List String) (bi : List Nat) (e : String),
      kpO bt = .error e → kpChunk kpO col bt bi = []) ∧
    (∀ (bt : List String) (bi : List Nat) (e : String),
      entO bt = .error e → entChunk entO bt bi = []) := by
  refine ⟨?_, ?_, ?_, ?_⟩
  · refine ⟨((chunksOf bs (df.map rowText)).zip
      (chunksOf bs (df.map Row.jobId))).flatMap
        (fun p => kpChunk kpO col p.1 p.2), ?_, ?_⟩
    · rw [extract_key_phrases, if_neg hbs]
    · intro r hr
      exact extract_key_phrases_jobId_mem kpO df col bs hbs _
        (by rw [extract_key_phrases, if_neg hbs]) r hr
  · refine ⟨((chunksOf bs (df.map rowText)).zip
      (chunksOf bs (df.map Row.jobId))).flatMap
        (fun p => entChunk entO p.1 p.2), ?_, ?_⟩
    · rw [recognize_entities, if_neg hbs]
    · intro r hr
      exact recognize_entities_jobId_mem entO df bs hbs _
        (by rw [recognize_entities, if_neg hbs]) r hr
  · intro bt bi e h
    rw [kpChunk, h]
  · intro bt bi e h
    rw [entChunk, h]

/-- Witness for C2 at the concrete oracles (key phrases succeed per
document; the entity call always raises) on the three-row DataFrame. -/
theorem c2_extraction_jobids_witness :
    (∃ out, extract_key_phrases wKpO wDf3 "Job Description" 5 = .ok out ∧
      ∀ r ∈ out, r.job_id ∈ wDf3.map Row.jobId) ∧
    (∃ out, recognize_entities wEntO wDf3 5 = .ok out ∧
      ∀ r ∈ out, r.job_id ∈ wDf3.map Row.jobId) ∧
    (∀ (bt : List String) (bi : List Nat) (e : String),
      wKpO bt = .error e → kpChunk wKpO "Job Description" bt bi = []) ∧
    (∀ (bt : List String) (bi : List Nat) (e : String),
      wEntO bt = .error e → entChunk wEntO bt bi = []) :=
  c2_extraction_jobids wKpO wEntO wDf3 "Job Description" 5 (by omega)

/-- Claim C4 (amended): given the same deterministic per-document remote
responses, the three enrichment functions produce the same output for any
two positive batch sizes — for key phrases and entities unconditionally, and
for sentiment provided the response for the empty document carries the
per-document error flag (as the service's rejection of empty documents
does); without that proviso the skip-empty-batch branch makes the sentiment
output depend on the batch size (see the counterexample). -/
theorem c4_batch_size_invariance
    (dS : String → SentDoc) (dK : String → KPDoc) (dE : String → EntDoc)
    (df : List Row) (col : String) (bs₁ bs₂ : Nat)
    (h₁ : bs₁ ≠ 0) (h₂ : bs₂ ≠ 0)
    (hS : (dS "").is_error = true) :
    analyze_sentiment (perDocSent dS) df bs₁ =
      analyze_sentiment (perDocSent dS) df bs₂ ∧
    extract_key_phrases (perDocKP dK) df col bs₁ =
      extract_key_phrases (perDocKP dK) df col bs₂ ∧
    recognize_entities (perDocEnt dE) df bs₁ =
      recognize_entities (perDocEnt dE) df bs₂ := by
  have hmaplen : (df.map rowText).length = (df.map Row.jobId).length := by
    rw [List.length_map, List.length_map]
  refine ⟨?_, ?_, ?_⟩
  · rw [analyze_sentiment, analyze_sentiment, if_neg h₁, if_neg h₂]
    simp only [sentResults_perDoc dS bs₁ h₁ hS, sentResults_perDoc dS bs₂ h₂ hS]
  · rw [extract_key_phrases, extract_key_phrases, if_neg h₁, if_neg h₂]
    simp only [kpChunks_perDoc dK col bs₁ h₁ (df.map rowText) (df.map Row.jobId) hmaplen,
      kpChunks_perDoc dK col bs₂ h₂ (df.map rowText) (df.map Row.jobId) hmaplen]
  · rw [recognize_entities, recognize_entities, if_neg h₁, if_neg h₂]
    simp only [entChunks_perDoc dE bs₁ h₁ (df.map rowText) (df.map Row.jobId) hmaplen,
      entChunks_perDoc dE bs₂ h₂ (df.map rowText) (df.map Row.jobId) hmaplen]

/-- Counterexample for C4 as stated: with the same deterministic
per-document responses (one successful result per document, empty document
included), `analyze_sentiment` yields different outputs for batch sizes 1
and 2 — with batch size 1 the all-empty batch is skipped and row 1 gets
`(null, null)`, with batch size 2 the mixed batch is sent and row 1 gets the
response's pair. -/
theorem c4_batch_size_cex :
    analyze_sentiment (perDocSent c4CexDoc) c4CexDf 1 =
      .ok [(⟨1, Option.none⟩, Option.none, Option.none),
           (⟨2, Option.some "x"⟩, Option.some 1, Option.some "Positive")] ∧
    analyze_sentiment (perDocSent c4CexDoc) c4CexDf 2 =
      .ok [(⟨1, Option.none⟩, Option.some 1, Option.some "Positive"),
           (⟨2, Option.some "x"⟩, Option.some 1, Option.some "Positive")] ∧
    decide (sentResults (perDocSent c4CexDoc) 1 (c4CexDf.map rowText) =
      sentResults (perDocSent c4CexDoc) 2 (c4CexDf.map rowText)) = false := by
  have hmap : c4CexDf.map rowText = ["", "x"] := rfl
  have hc1 : chunksOf 1 ["", "x"] = [[""], ["x"]] := by
    rw [chunksOf_one]
    rfl
  have hc2 : chunksOf 2 ["", "x"] = [["", "x"]] :=
    chunksOf_of_length_le 2 (by omega) _ (by simp) (by simp)
  have key1 : sentResults (perDocSent c4CexDoc) 1 ["", "x"] =
      [(Option.none, Option.none), (Option.some 1, Option.some "Positive")] := by
    rw [sentResults, hc1]
    decide
  have key2 : sentResults (perDocSent c4CexDoc) 2 ["", "x"] =
      [(Option.some 1, Option.some "Positive"),
       (Option.some 1, Option.some "Positive")] := by
    rw [sentResults, hc2]
    decide
  refine ⟨?_, ?_, ?_⟩
  · rw [analyze_sentiment, if_neg (by omega)]
    simp only [hmap, key1]
    rfl
  · rw [analyze_sentiment, if_neg (by omega)]
    simp only [hmap, key2]
    rfl
  · rw [hmap, key1, key2]
    decide

/-- Witness for C4 (amended) at concrete per-document responses, batch sizes
2 and 5, on the three-row DataFrame. -/
theorem c4_batch_size_invariance_witness :
    analyze_sentiment (perDocSent wDS) wDf3 2 =
      analyze_sentiment (perDocSent wDS) wDf3 5 ∧
    extract_key_phrases (perDocKP wDK) wDf3 "Job Description" 2 =
      extract_key_phrases (perDocKP wDK) wDf3 "Job Description" 5 ∧
    recognize_entities (perDocEnt wDE) wDf3 2 =
      recognize_entities (perDocEnt wDE) wDf3 5 :=
  c4_batch_size_invariance wDS wDK wDE wDf3 "Job Description" 2 5
    (by omega) (by omega) (by decide)

/-- Claim C9: end-to-end on the 2-row sample with batch size 1 — the empty
description sits alone in an all-empty batch, so no sentiment call is made
for it (the only remote sentiment call is for the non-empty text) and the
row gets `(null, null)`; the empty document is rejected by the key-phrase
and entity services (error flag or batch error), so the row gets zero
phrase/entity records; the non-empty row's successful call yields a label in
{Positive, Neutral, Negative}; the output has exactly one sentiment row per
input row in order, and every phrase/entity record is partitioned under one
of the two input job ids. -/
theorem c9_end_to_end
    (sO : List String → Except String (List SentDoc))
    (kpO : List String → Except String (List KPDoc))
    (entO : List String → Except String (List EntDoc))
    (p nu ng : Rat) (s : String)
    (hs : sO ["We are hiring engineers"] = .ok [SentDoc.ok p nu ng s])
    (hsv : s = "positive" ∨ s = "neutral" ∨ s = "negative")
    (hkp : (∃ e, kpO [""] = .error e) ∨ ∃ m, kpO [""] = .ok [KPDoc.err m])
    (hent : (∃ e, entO [""] = .error e) ∨ ∃ m, entO [""] = .ok [EntDoc.err m]) :
    ∃ out kps ents,
      analyze_sentiment sO [r1C9, r2C9] 1 = .ok out ∧
      extract_key_phrases kpO [r1C9, r2C9] "Job Description" 1 = .ok kps ∧
      recognize_entities entO [r1C9, r2C9] 1 = .ok ents ∧
      sentCalls sO 1 ([r1C9, r2C9].map rowText) =
        [["We are hiring engineers"]] ∧
      out.length = 2 ∧
      out.map Prod.fst = [r1C9, r2C9] ∧
      out[0]? = Option.some (r1C9, Option.none, Option.none) ∧
      (∃ sc lb, out[1]? = Option.some (r2C9, Option.some sc, Option.some lb) ∧
        (lb = "Positive" ∨ lb = "Neutral" ∨ lb = "Negative")) ∧
      kps.filter (fun r => r.job_id == 1) = [] ∧
      ents.filter (fun r => r.job_id == 1) = [] ∧
      (∀ r ∈ kps, r.job_id = 1 ∨ r.job_id = 2) ∧
      (∀ r ∈ ents, r.job_id = 1 ∨ r.job_id = 2) := by
  have htexts : [r1C9, r2C9].map rowText = ["", "We are hiring engineers"] := rfl
  have hids : [r1C9, r2C9].map Row.jobId = [1, 2] := rfl
  have hchunkT : chunksOf 1 ["", "We are hiring engineers"] =
      [[""], ["We are hiring engineers"]] := by
    rw [chunksOf_one]
    rfl
  have hchunkI : chunksOf 1 [1, 2] = [[1], [2]] := by
    rw [chunksOf_one]
    rfl
  have hskip : processSentChunk sO [""] =
      ([(Option.none, Option.none)], Option.none) := by
    rw [processSentChunk, if_pos (by decide)]
    rfl
  have hcall : processSentChunk sO ["We are hiring engineers"] =
      ([(Option.some (max (max p nu) ng), Option.some (pyCapitalize s))],
       Option.some ["We are hiring engineers"]) := by
    rw [processSentChunk, if_neg (by decide), hs]
    rfl
  have hpairs : sentResults sO 1 ["", "We are hiring engineers"] =
      [(Option.none, Option.none),
       (Option.some (max (max p nu) ng), Option.some (pyCapitalize s))] := by
    rw [sentResults, hchunkT]
    simp only [List.flatMap_cons, List.flatMap_nil, hskip, hcall]
    rfl
  have hout : analyze_sentiment sO [r1C9, r2C9] 1 =
      .ok [(r1C9, Option.none, Option.none),
           (r2C9, Option.some (max (max p nu) ng),
             Option.some (pyCapitalize s))] := by
    rw [analyze_sentiment, if_neg (by omega)]
    simp only [htexts, hpairs]
    rfl
  have hkp1 : kpChunk kpO "Job Description" [""] [1] = [] := by
    rcases hkp with ⟨e, he⟩ | ⟨m, hm⟩
    · rw [kpChunk, he]
    · rw [kpChunk, hm]
      rfl
  have hent1 : entChunk entO [""] [1] = [] := by
    rcases hent with ⟨e, he⟩ | ⟨m, hm⟩
    · rw [entChunk, he]
    · rw [entChunk, hm]
      rfl
  have hkpout : extract_key_phrases kpO [r1C9, r2C9] "Job Description" 1 =
      .ok (kpChunk kpO "Job Description" ["We are hiring engineers"] [2]) := by
    rw [extract_key_phrases, if_neg (by omega)]
    simp only [htexts, hids, hchunkT, hchunkI, List.zip_cons_cons,
      List.zip_nil_left, List.flatMap_cons, List.flatMap_nil, hkp1,
      List.nil_append, List.append_nil]
  have hentout : recognize_entities entO [r1C9, r2C9] 1 =
      .ok (entChunk entO ["We are hiring engineers"] [2]) := by
    rw [recognize_entities, if_neg (by omega)]
    simp only [htexts, hids, hchunkT, hchunkI, List.zip_cons_cons,
      List.zip_nil_left, List.flatMap_cons, List.flatMap_nil, hent1,
      List.nil_append, List.append_nil]
  have hkp2 : ∀ r ∈ kpChunk kpO "Job Description" ["We are hiring engineers"] [2],
      r.job_id = 2 := by
    intro r hr
    have := kpChunk_jobId_mem kpO "Job Description"
      ["We are hiring engineers"] [2] r hr
    simpa using this
  have hent2 : ∀ r ∈ entChunk entO ["We are hiring engineers"] [2],
      r.job_id = 2 := by
    intro r hr
    have := entChunk_jobId_mem entO ["We are hiring engineers"] [2] r hr
    simpa using this
  refine ⟨_, _, _, hout, hkpout, hentout, ?_, rfl, rfl, rfl, ?_, ?_, ?_, ?_, ?_⟩
  · rw [sentCalls, htexts, hchunkT]
    simp only [List.filterMap_cons, List.filterMap_nil, hskip, hcall]
  · refine ⟨max (max p nu) ng, pyCapitalize s, rfl, ?_⟩
    rcases hsv with h | h | h <;> rw [h]
    · left
      rfl
    · right
      left
      rfl
    · right
      right
      rfl
  · rw [List.filter_eq_nil_iff]
    intro r hr
    rw [hkp2 r hr]
    decide
  · rw [List.filter_eq_nil_iff]
    intro r hr
    rw [hent2 r hr]
    decide
  · intro r hr
    exact Or.inr (hkp2 r hr)
  · intro r hr
    exact Or.inr (hent2 r hr)

/-- Witness for C9 at the concrete oracles. -/
theorem c9_end_to_end_witness :
    ∃ out kps ents,
      analyze_sentiment wSO9 [r1C9, r2C9] 1 = .ok out ∧
      extract_key_phrases wKpO9 [r1C9, r2C9] "Job Description" 1 = .ok kps ∧
      recognize_entities wEntO9 [r1C9, r2C9] 1 = .ok ents ∧
      sentCalls wSO9 1 ([r1C9, r2C9].map rowText) =
        [["We are hiring engineers"]] ∧
      out.length = 2 ∧
      out.map Prod.fst = [r1C9, r2C9] ∧
      out[0]? = Option.some (r1C9, Option.none, Option.none) ∧
      (∃ sc lb, out[1]? = Option.some (r2C9, Option.some sc, Option.some lb) ∧
        (lb = "Positive" ∨ lb = "Neutral" ∨ lb = "Negative")) ∧
      kps.filter (fun r => r.job_id == 1) = [] ∧
      ents.filter (fun r => r.job_id == 1) = [] ∧
      (∀ r ∈ kps, r.job_id = 1 ∨ r.job_id = 2) ∧
      (∀ r ∈ ents, r.job_id = 1 ∨ r.job_id = 2) :=
  c9_end_to_end wSO9 wKpO9 wEntO9 1 0 0 "positive"
    (by rw [wSO9, if_pos rfl])
    (Or.inl rfl)
    (Or.inr ⟨"Invalid document", by rw [wKpO9, if_pos rfl]⟩)
    (Or.inl ⟨"empty batch", by rw [wEntO9, if_pos rfl]⟩)
